import Mathlib

/-!
Verification of the IRB Key-Information summary pipeline.

This file gives a shallow embedding, in Lean 4, of the decision logic of the
self-healing extraction/validation pipeline and the slot-based document
assembler of the `irb-ki-summary` repository, and proves (or refutes) the
frozen specification claims about it.

Conventions used throughout:
* Python strings are modelled as Lean `String`s; `x in y` (substring test)
  is `pySubstr`; `str.lower()` is `pyLower`; `len(x.split())` is
  `pyWordCount`.  All inputs considered in the theorems are ASCII, where
  these agree with Python's semantics.
* Python floats are modelled as exact rationals (`ℚ`).  All constants in
  the source (0.7, 0.3, ...) are decimal literals, so the arithmetic
  structure of every comparison is preserved exactly.
* Python dicts that are iterated in insertion order are modelled as
  ordered association lists.
* The two LLM calls (`extract_structured`, `extract_text`) are modelled as
  oracles (functions given as parameters); `none` models a raised
  exception, `some x` a successful call returning `x`.
-/

/-! ## Python string primitives -/

/-- Python's substring test `needle in hay`. -/
def pySubstr (needle hay : String) : Bool :=
  hay.data.tails.any (fun t => needle.data.isPrefixOf t)

/-- Python's `str.lower()` (ASCII case folding). -/
def pyLower (s : String) : String := ⟨s.data.map Char.toLower⟩

/-- Counts maximal non-whitespace runs; the Boolean records whether the
previous character was inside a word. -/
def wordRuns : List Char → Bool → Nat
  | [], _ => 0
  | c :: r, inWord =>
    if c.isWhitespace then wordRuns r false
    else (if inWord then 0 else 1) + wordRuns r true

/-- Python's `len(s.split())`: the number of whitespace-separated words. -/
def pyWordCount (s : String) : Nat := wordRuns s.data false

/-- Python's `s.strip()` restricted to whitespace. -/
def pyStrip (s : String) : String :=
  ⟨((s.data.dropWhile Char.isWhitespace).reverse.dropWhile Char.isWhitespace).reverse⟩

/-- Collapse every maximal whitespace run to a single space, as
`re.sub(r"\s+", " ", s)` does; the Boolean remembers whether the previous
character was whitespace. -/
def collapseWsAux : List Char → Bool → List Char
  | [], _ => []
  | c :: r, prevWs =>
    if c.isWhitespace then (if prevWs then [] else [' ']) ++ collapseWsAux r true
    else c :: collapseWsAux r false

def collapseWs (s : String) : String := ⟨collapseWsAux s.data false⟩

/-! ## Data model: per-field validation results
(`FieldValidationResult` in `app/core/semantic_validation.py`; `value` and
`refined_value` hold strings here — the only uses relevant to the claims
store strings or enum values, which we store via their `.value` string). -/

structure FieldValidationResult where
  field_name : String
  value : String
  is_valid : Bool
  confidence : ℚ
  issues : List String := []
  suggestions : List String := []
  needs_reextraction : Bool := false
  refined_value : Option String := none
deriving DecidableEq

/-! ## SemanticFieldValidator.validate_duration

The duration regex `(\d+(?:\.\d+)?)\s*(day|week|month|year|hour|minute|visit|cycle)s?`
(IGNORECASE) is embedded by a direct scanner.  Maximal munch is equivalent to
the regex's greedy backtracking semantics here: taking fewer digits for `\d+`
(or for the fractional part) leaves a digit as the next character, which can
never begin `\s*(unit)`, and no unit word is a prefix of another, so no
backtracking can turn a failed maximal attempt into a success. -/

/-- Units of the duration pattern's alternation, in source order. -/
def durationUnits : List String :=
  ["day", "week", "month", "year", "hour", "minute", "visit", "cycle"]

/-- Matches `\d+(?:\.\d+)?` at the head of the list: returns the matched
characters and the rest, or `none` if no digit is present. -/
def matchNumAt (l : List Char) : Option (List Char × List Char) :=
  let (ds, r1) := l.span Char.isDigit
  if ds.isEmpty then none
  else
    match r1 with
    | '.' :: r2 =>
      let (fs, r3) := r2.span Char.isDigit
      if fs.isEmpty then some (ds, r1) else some (ds ++ '.' :: fs, r3)
    | _ => some (ds, r1)

/-- Matches the unit alternation case-insensitively at the head of the list:
returns the matched characters (original case, as the regex group captures
them) and the rest. -/
def matchUnitAt (l : List Char) : Option (List Char × List Char) :=
  durationUnits.findSome? fun u =>
    if (l.take u.length).map Char.toLower = u.data then
      some (l.take u.length, l.drop u.length)
    else none

/-- Consumes the optional trailing `s` (IGNORECASE). -/
def eatPluralS : List Char → List Char
  | [] => []
  | c :: r => if c.toLower = 's' then r else c :: r

/-- One attempt to match the whole duration pattern at the current position:
returns the two captured groups (amount, unit) and the remaining input. -/
def matchDurAt (l : List Char) : Option ((String × String) × List Char) :=
  match matchNumAt l with
  | none => none
  | some (num, r1) =>
    let r2 := r1.dropWhile Char.isWhitespace
    match matchUnitAt r2 with
    | none => none
    | some (u, r3) => some ((⟨num⟩, ⟨u⟩), eatPluralS r3)

/-- Python's `pattern.findall(value)`: scan left to right, recording
non-overlapping matches.  Fuel is the input length; every match consumes at
least one character. -/
def findallDur : Nat → List Char → List (String × String)
  | 0, _ => []
  | _, [] => []
  | fuel + 1, c :: rest =>
    match matchDurAt (c :: rest) with
    | some (g, r) => g :: findallDur fuel r
    | none => findallDur fuel rest

/-- Value of a decimal digit character. -/
def digitVal (c : Char) : Nat := c.toNat - 48

def natOfDigits (l : List Char) : Nat := l.foldl (fun a c => a * 10 + digitVal c) 0

/-- Python's `float(amount)` on a matched `\d+(?:\.\d+)?` group, as an exact
rational. -/
def qOfNum (s : String) : ℚ :=
  let (ip, rest) := s.data.span Char.isDigit
  match rest with
  | '.' :: fp => (natOfDigits ip : ℚ) + (natOfDigits fp : ℚ) / ((10 : ℚ) ^ fp.length)
  | _ => (natOfDigits ip : ℚ)

/-- The placeholder list of `validate_duration`
(`["", "not specified", "varies", "unknown", "tbd"]`). -/
def durationPlaceholders : List String := ["", "not specified", "varies", "unknown", "tbd"]

/-- State threaded through the unit-conversion loop of `validate_duration`:
running day total, current confidence, accumulated suggestions. -/
def durStep (st : ℚ × ℚ × List String) (m : String × String) : ℚ × ℚ × List String :=
  let a := qOfNum m.1
  let u := pyLower m.2
  if u = "day" then (st.1 + a, st.2.1, st.2.2)
  else if u = "week" then (st.1 + a * 7, st.2.1, st.2.2)
  else if u = "month" then (st.1 + a * 30, st.2.1, st.2.2)
  else if u = "year" then (st.1 + a * 365, st.2.1, st.2.2)
  else if u = "hour" then (st.1 + a / 24, st.2.1, st.2.2)
  else if u = "minute" then (st.1 + a / 1440, st.2.1, st.2.2)
  else
    -- visit / cycle: cannot be converted to days; confidence is assigned 0.8
    (st.1, 0.8, st.2.2 ++ ["Consider adding time estimate for '" ++ m.2 ++ "'"])

/-- `SemanticFieldValidator.validate_duration`
(`app/core/semantic_validation.py`, lines 134-209).  Numeric interpolation in
the issue texts (`{total_days:.1f}`) is elided; no claim inspects those
message strings. -/
def validate_duration (value : String) : FieldValidationResult :=
  let base : FieldValidationResult :=
    { field_name := "study_duration", value := value, is_valid := true, confidence := 1 }
  if value = "" ∨ durationPlaceholders.contains (pyLower value) then
    { base with
        is_valid := false, confidence := 0,
        issues := ["Duration is missing or contains placeholder text"],
        needs_reextraction := true }
  else
    let ms := findallDur value.data.length value.data
    if ms.isEmpty then
      { base with
          is_valid := false, confidence := 0.2,
          issues := ["Cannot parse duration format: '" ++ value ++ "'"],
          suggestions := ["Use format like '6 months', '2 years', '12 weeks'"],
          needs_reextraction := true }
    else
      let st := ms.foldl durStep (0, 1, [])
      let totalDays := st.1
      let conf1 := st.2.1
      let sugg1 := st.2.2
      let (conf2, iss2, sugg2) :=
        if 0 < totalDays then
          if totalDays < 1 then (0.6, ["Duration seems too short"], sugg1)
          else if 3650 < totalDays then (0.5, ["Duration seems too long"], sugg1)
          else if totalDays < 7 ∨ 730 < totalDays then
            (max 0.7 (conf1 - 0.1), [], sugg1 ++ ["Duration is outside typical range"])
          else (conf1, [], sugg1)
        else (conf1, [], sugg1)
      let conf3 :=
        if pySubstr "up to" (pyLower value) ∨ pySubstr "approximately" (pyLower value) then
          min 0.9 conf2
        else conf2
      { base with confidence := conf3, issues := iss2, suggestions := sugg2 }

/-! ## Extraction schema (`app/core/extraction_models.py`) -/

inductive StudyType where
  | studying
  | collecting
deriving DecidableEq

def StudyType.val : StudyType → String
  | .studying => "studying"
  | .collecting => "collecting"

inductive ArticleType where
  | a
  | aNew
  | noArticle
deriving DecidableEq

def ArticleType.val : ArticleType → String
  | .a => "a "
  | .aNew => "a new "
  | .noArticle => ""

inductive PopulationType where
  | people
  | largeNumbersPeople
  | smallNumbersPeople
  | children
  | largeNumbersChildren
  | smallNumbersChildren
deriving DecidableEq

def PopulationType.val : PopulationType → String
  | .people => "people"
  | .largeNumbersPeople => "large numbers of people"
  | .smallNumbersPeople => "small numbers of people"
  | .children => "children"
  | .largeNumbersChildren => "large numbers of children"
  | .smallNumbersChildren => "small numbers of children"

/-- `KIExtractionSchema`: the extraction record for Key-Information
summaries.  `Option String` models `Optional[str]` fields (Python `None` is
`none`). -/
structure KIExtractionSchema where
  is_pediatric : Bool
  study_type : StudyType
  article : ArticleType
  study_object : String
  population : PopulationType
  study_purpose : String
  study_goals : String
  has_randomization : Bool
  requires_washout : Bool
  key_risks : String
  has_direct_benefits : Bool
  benefit_description : String
  study_duration : String := ""
  affects_treatment : Bool
  alternative_options : Option String := none
  collects_biospecimens : Bool
  biospecimen_details : Option String := none
deriving DecidableEq

/-- Python's `str(x)` on an `Optional[str]`: `str(None)` is `"None"`. -/
def pyStrOfOpt : Option String → String
  | none => "None"
  | some s => s

/-! ## The remaining field validators of `SemanticFieldValidator` -/

def genericRisks : List String := ["standard medical risks", "minimal risks", "none"]

/-- `SemanticFieldValidator.validate_risks` (lines 211-252).  The
`study_object` parameter is present in the source but unused. -/
def validate_risks (value : String) (study_object : String) : FieldValidationResult :=
  let _ := study_object
  let base : FieldValidationResult :=
    { field_name := "key_risks", value := value, is_valid := true, confidence := 1 }
  if value = "" ∨ genericRisks.contains (pyLower value) then
    { base with
        is_valid := false, confidence := 0.3,
        issues := ["Too generic or missing"], needs_reextraction := true }
  else
    let wc := pyWordCount value
    if 5 < wc then { base with confidence := 0.9 }
    else if 3 ≤ wc then
      { base with confidence := 0.7, suggestions := ["Could be more specific"] }
    else
      { base with confidence := 0.5, issues := ["Risk description too brief"] }

def pediatricPopulations : List PopulationType :=
  [.children, .largeNumbersChildren, .smallNumbersChildren]

/-- `SemanticFieldValidator.validate_population` (lines 254-289).  The
`value` and `refined_value` slots hold the enum's string value. -/
def validate_population (population_type : PopulationType) (is_pediatric : Bool) :
    FieldValidationResult :=
  let base : FieldValidationResult :=
    { field_name := "population", value := population_type.val,
      is_valid := true, confidence := 1 }
  if is_pediatric then
    if population_type ∉ pediatricPopulations then
      { base with
          is_valid := false, confidence := 0.2,
          issues := ["Pediatric flag set but population doesn't mention children"],
          refined_value := some PopulationType.children.val }
    else base
  else
    if pySubstr "children" (pyLower population_type.val) then
      { base with
          is_valid := false, confidence := 0.3,
          issues := ["Population mentions children but pediatric flag is False"] }
    else base

def studyingKeywords : List String :=
  ["evaluate", "test", "assess", "examine", "investigate", "determine"]

def collectingKeywords : List String :=
  ["collect", "gather", "obtain", "record", "document", "survey"]

/-- `SemanticFieldValidator.validate_study_purpose` (lines 291-339). -/
def validate_study_purpose (value : String) (study_type : StudyType) :
    FieldValidationResult :=
  let base : FieldValidationResult :=
    { field_name := "study_purpose", value := value, is_valid := true, confidence := 1 }
  if value = "" ∨ value.length < 10 then
    { base with
        is_valid := false, confidence := 0.2,
        issues := ["Study purpose is missing or too brief"], needs_reextraction := true }
  else
    let wc := pyWordCount value
    let (conf1, iss1, sugg1) :=
      if wc < 5 then ((0.5 : ℚ), ["Purpose too brief - should be 10-15 words"], ([] : List String))
      else if 25 < wc then (0.8, [], ["Consider condensing purpose to 10-15 words"])
      else (1, [], [])
    let valueLower := pyLower value
    let (conf2, sugg2) :=
      match study_type with
      | .studying =>
        if studyingKeywords.any (fun k => pySubstr k valueLower) then (conf1, sugg1)
        else (min 0.7 conf1, sugg1 ++ ["Purpose should use action verbs like 'evaluate' or 'test'"])
      | .collecting =>
        if collectingKeywords.any (fun k => pySubstr k valueLower) then (conf1, sugg1)
        else (min 0.7 conf1, sugg1 ++ ["Purpose should mention data collection activities"])
    { base with confidence := conf2, issues := iss1, suggestions := sugg2 }

/-! ## CrossFieldValidator (lines 359-440)

Each rule is `(predicate, confidence_impact, message)`; a failing predicate
appends its message and adds its impact to the penalty.  The `try/except`
around each rule cannot fire in this pure model (none of the checks can
raise on a well-typed record). -/

def crossRule1 (e : KIExtractionSchema) : Bool :=
  !e.is_pediatric ||
    (["parent", "guardian", "assent"].any fun w => pySubstr w (pyLower e.benefit_description))

def crossRule2 (e : KIExtractionSchema) : Bool :=
  !e.has_randomization ||
    (["group", "arm", "randomize", "assign"].any fun w =>
      pySubstr w (pyLower e.study_purpose ++ pyLower e.study_goals))

def crossRule3 (e : KIExtractionSchema) : Bool :=
  !e.requires_washout ||
    (["medication", "drug", "withdrawal", "washout"].any fun w =>
      pySubstr w (pyLower e.key_risks))

def crossRule4 (e : KIExtractionSchema) : Bool :=
  !e.collects_biospecimens ||
    (["blood", "tissue", "sample", "specimen", "biopsy"].any fun w =>
      pySubstr w (pyLower e.key_risks))

def crossRule5 (e : KIExtractionSchema) : Bool :=
  !e.affects_treatment ||
    (match e.alternative_options with
     | none => false
     | some s => s ≠ "" && 10 < (pyStrOfOpt (some s)).length)

/-- The ordered rule table of `CrossFieldValidator._build_validation_rules`. -/
def crossRules (e : KIExtractionSchema) : List (Bool × ℚ × String) :=
  [(crossRule1 e, 0.3, "Pediatric study but no mention of parental consent"),
   (crossRule2 e, 0.2, "Randomized study but no mention of groups/arms"),
   (crossRule3 e, 0.25, "Washout required but no medication-related risks mentioned"),
   (crossRule4 e, 0.2, "Collects biospecimens but not mentioned in risks"),
   (crossRule5 e, 0.3, "Treatment affected but no alternatives specified")]

/-- `CrossFieldValidator.validate`: returns the issue list and
`max(0.1, 1.0 - confidence_penalty)`. -/
def crossValidate (e : KIExtractionSchema) : List String × ℚ :=
  let step := fun (st : List String × ℚ) (r : Bool × ℚ × String) =>
    if r.1 then st else (st.1 ++ [r.2.2], st.2 + r.2.1)
  let res := (crossRules e).foldl step ([], 0)
  (res.1, max 0.1 (1 - res.2))

/-! ## SelfHealingExtractor.validate_extraction (lines 532-595) -/

/-- `DocumentValidationResult`; `field_results` is an insertion-ordered
association list, as the Python dict is iterated in insertion order. -/
structure DocumentValidationResult where
  is_valid : Bool
  overall_confidence : ℚ
  field_results : List (String × FieldValidationResult)
  cross_field_issues : List String := []
  requires_human_review : Bool := false
  extraction_attempts : Nat := 1
deriving DecidableEq

/-- `DocumentValidationResult.get_problematic_fields`. -/
def get_problematic_fields (v : DocumentValidationResult) : List String :=
  (v.field_results.filter fun p => p.2.confidence < 0.7 || !p.2.is_valid).map Prod.fst

/-- The single configuration constant (`CONFIDENCE_THRESHOLD = 0.7`). -/
def CONFIDENCE_THRESHOLD : ℚ := 0.7

/-- The four per-field results computed by `validate_extraction`, in
insertion order. -/
def fieldResults (e : KIExtractionSchema) : List (String × FieldValidationResult) :=
  [("study_duration", validate_duration e.study_duration),
   ("key_risks", validate_risks e.key_risks e.study_object),
   ("population", validate_population e.population e.is_pediatric),
   ("study_purpose", validate_study_purpose e.study_purpose e.study_type)]

/-- Mean of the per-field confidences:
`total_confidence / max(1, field_count)` in the source. -/
def fieldMean (e : KIExtractionSchema) : ℚ :=
  ((fieldResults e).map (fun p => p.2.confidence)).sum / max 1 (fieldResults e).length

/-- `SelfHealingExtractor.validate_extraction` on a `KIExtractionSchema`
record (the `isinstance` branch taken for every record of this type). -/
def validate_extraction (e : KIExtractionSchema) : DocumentValidationResult :=
  let frs := fieldResults e
  let cross := crossValidate e
  let overall := fieldMean e * 0.7 + cross.2 * 0.3
  { is_valid := (frs.all fun p => p.2.is_valid) && cross.1.isEmpty,
    overall_confidence := overall,
    field_results := frs,
    cross_field_issues := cross.1,
    requires_human_review := overall < 0.7,
    extraction_attempts := 1 }

/-! ## SelfHealingExtractor.extract_with_validation (lines 463-530)
and `_refine_problematic_fields` (lines 631-673)

The LLM is modelled by two oracles: `oracle n` is the outcome of the
`extract_structured` call of attempt `n` (`none` = the call raised, and the
`except` branch runs `continue`), and `ro n f` the outcome of the
`extract_text` call refining field `f` during attempt `n` (`none` = raised,
and the field is left as is).  The refinement-guidance prompt built from the
best validation only influences the LLM, so it is absorbed into the oracle.

`_refine_problematic_fields` mutates the current record in place via
`setattr`.  Because `best_extraction` is assigned the very same object
*before* the refinement runs, refining the current attempt's record also
changes the retained best record.  The model makes this aliasing explicit:
when the best slot was updated in the current iteration, the stored best
record is the refined record, while the ghost `bestSnapshot` field keeps the
value the record had at the moment it was stored (the snapshot is
instrumentation only; no branch of the loop reads it). -/

/-- `setattr(extraction, field_name, refined_value)` for the fields that can
reach the `setattr` call.  `_refine_problematic_fields` guards the call with
`needs_reextraction`, which only `validate_duration`, `validate_risks` and
`validate_study_purpose` ever set, so only these three string fields can be
assigned (`validate_population` never sets `needs_reextraction`). -/
def setStringField (e : KIExtractionSchema) (name val : String) : KIExtractionSchema :=
  if name = "study_duration" then { e with study_duration := val }
  else if name = "key_risks" then { e with key_risks := val }
  else if name = "study_purpose" then { e with study_purpose := val }
  else e

/-- The body of the loop of `_refine_problematic_fields` for one problematic
field `name`: if the field's result has `needs_reextraction`, re-extract it
via the LLM (`ro`); on success assign the field, on a raised exception leave
the record as is. -/
def refineFieldStep (ro : String → Option String) (v : DocumentValidationResult)
    (acc : KIExtractionSchema) (name : String) : KIExtractionSchema :=
  match v.field_results.lookup name with
  | none => acc
  | some fr =>
    if fr.needs_reextraction then
      match ro name with
      | some refined => setStringField acc name refined
      | none => acc
    else acc

/-- `SelfHealingExtractor._refine_problematic_fields`: fold the refinement
step over the problematic fields in `field_results` insertion order. -/
def refineProblematicFields (ro : String → Option String)
    (e : KIExtractionSchema) (v : DocumentValidationResult) : KIExtractionSchema :=
  (get_problematic_fields v).foldl (refineFieldStep ro v) e

/-- Result of one orchestrator run: the returned record and validation
result, plus the ghost snapshot of the best record taken when it was stored
(see the section comment). -/
structure ExtractOutcome where
  record : Option KIExtractionSchema
  validation : Option DocumentValidationResult
  bestSnapshot : Option KIExtractionSchema
deriving DecidableEq

/-- The code after the attempt loop: flag the best result for human review
when its confidence is below the threshold, then return it (`(None, None)`
when every attempt failed). -/
def finalizeBest : Option (KIExtractionSchema × DocumentValidationResult × KIExtractionSchema) →
    ExtractOutcome
  | none => ⟨none, none, none⟩
  | some (e, v, snap) =>
    if v.overall_confidence < CONFIDENCE_THRESHOLD then
      ⟨some e, some { v with requires_human_review := true }, some snap⟩
    else ⟨some e, some v, some snap⟩

/-- The attempt loop of `extract_with_validation`.  `remaining` is the number
of attempts still to run, `attempt` the 0-based index of the next one;
`best` carries `(best_extraction, best_validation, snapshot-at-store-time)`
and `bestConf` is `best_confidence`. -/
def extractLoop (oracle : Nat → Option KIExtractionSchema)
    (ro : Nat → String → Option String) (maxAttempts : Nat) :
    Nat → Nat →
    Option (KIExtractionSchema × DocumentValidationResult × KIExtractionSchema) → ℚ →
    ExtractOutcome
  | 0, _, best, _ => finalizeBest best
  | remaining + 1, attempt, best, bestConf =>
    match oracle attempt with
    | none => extractLoop oracle ro maxAttempts remaining (attempt + 1) best bestConf
    | some e =>
      let v := { validate_extraction e with extraction_attempts := attempt + 1 }
      if CONFIDENCE_THRESHOLD ≤ v.overall_confidence then
        -- early acceptance: return this attempt's record and result
        ⟨some e, some v, none⟩
      else
        let bestUpdated := bestConf < v.overall_confidence
        -- targeted refinement of the current record (in place in the source)
        let e2 :=
          if v.overall_confidence < 0.5 ∧ attempt < maxAttempts - 1 then
            refineProblematicFields (ro attempt) e v
          else e
        let best' := if bestUpdated then some (e2, v, e) else best
        let bestConf' := if bestUpdated then v.overall_confidence else bestConf
        extractLoop oracle ro maxAttempts remaining (attempt + 1) best' bestConf'

/-- `SelfHealingExtractor.extract_with_validation` with `max_attempts`
attempts. -/
def extract_with_validation (oracle : Nat → Option KIExtractionSchema)
    (ro : Nat → String → Option String) (maxAttempts : Nat) : ExtractOutcome :=
  extractLoop oracle ro maxAttempts maxAttempts 0 none 0

/-! ## Concrete records and oracles used by the claims -/

/-- A record that `validate_extraction` scores at overall confidence exactly
`0.4`: field confidences 0 (empty duration), 0.3 (generic risks),
0.2 (pediatric flag vs `people`), 0.5 (two-word purpose), mean `0.25`; the
washout cross-rule fails (penalty 0.25), cross confidence `0.75`;
`0.25 * 0.7 + 0.75 * 0.3 = 0.4`. -/
def r04 : KIExtractionSchema :=
  { is_pediatric := true, study_type := .studying, article := .a,
    study_object := "a gadget", population := .people,
    study_purpose := "evaluate abcdefgh", study_goals := "",
    has_randomization := false, requires_washout := true,
    key_risks := "standard medical risks", has_direct_benefits := false,
    benefit_description := "parent", study_duration := "",
    affects_treatment := false, alternative_options := none,
    collects_biospecimens := false, biospecimen_details := none }

/-- Stub extraction service whose result always validates at confidence 0.4. -/
def stubOracle04 : Nat → Option KIExtractionSchema := fun _ => some r04

/-- Extraction service that raises on every attempt. -/
def failingOracle : Nat → Option KIExtractionSchema := fun _ => none

/-- Field-refinement LLM that raises on every call. -/
def failingRefine : Nat → String → Option String := fun _ _ => none

/-- Field-refinement LLM that successfully re-extracts `study_duration` as
`"6 months"` and raises on every other field. -/
def durationRefine : Nat → String → Option String := fun _ f =>
  if f = "study_duration" then some "6 months" else none

/-- Extraction service that succeeds (with the 0.4-confidence record) on the
first attempt only and raises afterwards. -/
def firstOnlyOracle : Nat → Option KIExtractionSchema := fun n =>
  if n = 0 then some r04 else none

/-! ## Post-render validation pipeline (`app/core/validators.py`)

The accumulator (`ValidationContext.results`) is a record; every validator
mutates it only through `BaseValidator.add_issue` / `add_warning` /
`add_info` plus writes into the `content_analysis` map, which the op list
below captures: a validator run is the ordered list of accumulator
operations it performs.  `FieldValidator` and `CriticalValueValidator` are
embedded concretely; `ContentQualityValidator` and `StructuralValidator`
(whose trigger conditions are regex/np heuristics irrelevant to the claims)
are quantified over as arbitrary op emitters, which is sound because, like
every `BaseValidator`, they touch `passed`/`issues` only through
`add_issue`. -/

/-- One accumulator operation: `add_issue`, `add_warning`, `add_info`, or a
write into `content_analysis` (numeric values only are needed here). -/
inductive ValOp where
  | issue (msg : String)
  | warning (msg : String)
  | info (msg : String)
  | analysis (key : String) (val : ℚ)
deriving DecidableEq

/-- The `results` accumulator (`passed`, `issues`, `warnings`, `info`,
`content_analysis`, `consistency_metrics`). -/
structure VResults where
  passed : Bool := true
  issues : List String := []
  warnings : List String := []
  info : List String := []
  content_analysis : List (String × ℚ) := []
  consistency_metrics : List (String × ℚ) := []
deriving DecidableEq

def initResults : VResults := {}

/-- `add_issue` appends and sets `passed = False`; the other operations
never touch `passed` or `issues`. -/
def applyOp (r : VResults) : ValOp → VResults
  | .issue m => { r with issues := r.issues ++ [m], passed := false }
  | .warning m => { r with warnings := r.warnings ++ [m] }
  | .info m => { r with info := r.info ++ [m] }
  | .analysis k v => { r with content_analysis := r.content_analysis ++ [(k, v)] }

def applyOps (r : VResults) (ops : List ValOp) : VResults := ops.foldl applyOp r

/-- `ValidationRuleSet` (the parts `FieldValidator` reads). -/
structure ValidationRuleSet where
  required_fields : List String := []
  max_lengths : List (String × Nat) := []
  allowed_values : List (String × List String) := []
deriving DecidableEq

/-- `ValidationContext` inputs: the original record (string-valued fields,
insertion-ordered), the rendered text, the rule set, and the critical-value
field list. -/
structure VContext where
  original : List (String × String)
  rendered : String
  rules : ValidationRuleSet
  critical_values : List String
deriving DecidableEq

/-- `FieldValidator.validate`: required fields (missing or falsy value →
issue), max lengths (over limit → warning), allowed values (present and not
allowed → issue), in source order.  Message interpolation is simplified. -/
def fieldValidatorOps (ctx : VContext) : List ValOp :=
  (ctx.rules.required_fields.filterMap fun f =>
    match ctx.original.lookup f with
    | none => some (.issue ("Required field missing: " ++ f))
    | some v => if v = "" then some (.issue ("Required field missing: " ++ f)) else none) ++
  (ctx.rules.max_lengths.filterMap fun p =>
    match ctx.original.lookup p.1 with
    | none => none
    | some v => if p.2 < v.length then some (.warning ("Field exceeds max length: " ++ p.1))
                else none) ++
  (ctx.rules.allowed_values.filterMap fun p =>
    match ctx.original.lookup p.1 with
    | none => none
    | some v => if v ∈ p.2 then none
                else some (.issue ("Field has invalid value: " ++ p.1)))

/-- The issue operations of `CriticalValueValidator.validate`: one issue per
critical field that is present in the record but whose exact value is not a
substring of the rendered text (in critical-list order). -/
def criticalIssueOps (ctx : VContext) : List ValOp :=
  ctx.critical_values.filterMap fun f =>
    match ctx.original.lookup f with
    | none => none
    | some v =>
      if pySubstr v ctx.rendered then none
      else some (.issue ("Critical value '" ++ v ++ "' for field '" ++ f ++ "' not preserved"))

/-- `total`: the number of critical fields present in the record. -/
def criticalTotal (ctx : VContext) : Nat :=
  (ctx.critical_values.filter fun f => (ctx.original.lookup f).isSome).length

/-- `preserved`: the number of critical fields present and preserved. -/
def criticalPreserved (ctx : VContext) : Nat :=
  (ctx.critical_values.filter fun f =>
    match ctx.original.lookup f with
    | none => false
    | some v => pySubstr v ctx.rendered).length

/-- `preservation_rate = preserved / total`. -/
def criticalRate (ctx : VContext) : ℚ :=
  (criticalPreserved ctx : ℚ) / (criticalTotal ctx : ℚ)

/-- `CriticalValueValidator.validate` as its ordered operation list: the
per-field issues (emitted inside the loop, which also counts `preserved` and
`total`), then — when any critical field was present — the preservation-rate
record and, if the rate is below 100%, the warning. -/
def criticalValueOps (ctx : VContext) : List ValOp :=
  criticalIssueOps ctx ++
  (if 0 < criticalTotal ctx then
    [ValOp.analysis "critical_value_preservation" (criticalRate ctx)] ++
    (if criticalRate ctx < 1 then
      [ValOp.warning "Critical value preservation rate below 100%"] else [])
  else [])

/-- The accumulator after running just `CriticalValueValidator` on a fresh
context. -/
def criticalRun (ctx : VContext) : VResults := applyOps initResults (criticalValueOps ctx)

/-- `ValidationOrchestrator.validate`: run the four validators in order over
one shared accumulator, then attach the consistency metrics (a
`results["consistency_metrics"]` dict write, which touches neither `passed`
nor `issues`).  `contentOps` and `structuralOps` stand for
`ContentQualityValidator` and `StructuralValidator`. -/
def orchestratorValidate (contentOps structuralOps : VContext → List ValOp)
    (metrics : List (String × ℚ)) (ctx : VContext) : VResults :=
  let r := applyOps initResults
    (fieldValidatorOps ctx ++ contentOps ctx ++ structuralOps ctx ++ criticalValueOps ctx)
  { r with consistency_metrics := metrics }

/-! ## ConsistencyMetrics (`app/core/validators.py`, lines 263-285)

`np.mean` and `np.std` (population standard deviation) are modelled over
exact rationals and real numbers; floating-point rounding is idealised away,
which preserves the guard structure of the source exactly. -/

/-- `np.mean` of the tracked word counts. -/
def npMean (xs : List ℤ) : ℚ := ((xs.map Int.cast).sum) / (xs.length : ℚ)

/-- `np.std` (population standard deviation, `ddof = 0`). -/
noncomputable def npStd (xs : List ℤ) : ℝ :=
  Real.sqrt (((xs.map fun x => ((Int.cast x : ℝ) - ((npMean xs : ℚ) : ℝ)) ^ 2).sum)
    / (xs.length : ℝ))

/-- `ConsistencyMetrics.calculate_coefficient_of_variation`. -/
noncomputable def calculate_coefficient_of_variation (word_counts : List ℤ) : ℝ :=
  if word_counts.length < 2 then 0
  else if npMean word_counts = 0 then 0
  else (npStd word_counts / ((npMean word_counts : ℚ) : ℝ)) * 100

/-- `ConsistencyMetrics.calculate_structural_consistency`
(`len(set(hashes))` is the number of distinct hashes). -/
def calculate_structural_consistency (content_hashes : List String) : ℚ :=
  if content_hashes.length < 2 then 1
  else 1 - ((content_hashes.dedup.length : ℚ) - 1) / (content_hashes.length : ℚ)

/-! ## Document assembler (`app/plugins/informed_consent_plugin.py`)

`KIExtractionAgent.process` turns one extraction record into the slot map
handed to the naturalization agent (`slot_values`).  `model_dump(mode='json')`
serialises enum fields to their string values and keeps every key, so the
record's typed fields are read directly; dict assignment and `setdefault`
are modelled on an ordered association list. -/

/-- A slot value: the map holds both raw booleans and strings. -/
inductive SlotVal where
  | b (x : Bool)
  | s (x : String)
deriving DecidableEq

/-- Dict assignment `m[k] = v`: replace in place if the key exists
(insertion position is kept), else append. -/
def setSlot (m : List (String × SlotVal)) (k : String) (v : SlotVal) :
    List (String × SlotVal) :=
  if m.any fun p => p.1 = k then m.map fun p => if p.1 = k then (k, v) else p
  else m ++ [(k, v)]

/-- Dict `m.setdefault(k, v)`: append only if the key is absent. -/
def setDefault (m : List (String × SlotVal)) (k : String) (v : SlotVal) :
    List (String × SlotVal) :=
  if m.any fun p => p.1 = k then m else m ++ [(k, v)]

/-- The characters stripped from the end of a clause
(`_TRAILING_CHARS = " .;:,!?\"'"`). -/
def trailingChars : List Char := [' ', '.', ';', ':', ',', '!', '?', '"', '\'']

def isAsciiLetter (c : Char) : Bool :=
  ('A' ≤ c && c ≤ 'Z') || ('a' ≤ c && c ≤ 'z')

/-- A character of the word-continuation class: letter, digit, apostrophe, slash, or hyphen. -/
def isWordChar (c : Char) : Bool :=
  isAsciiLetter c || c.isDigit || c = '\'' || c = '/' || c = '-'

/-- The `lower_leading` step of `_normalize_clause`: find the first ASCII
letter, take the maximal word there (a letter followed by letters, digits, apostrophes, slashes, hyphens) (the inner
`re.match` always succeeds since the character at `idx` is a letter), and
downcase that word's first character unless the word `isupper()` (for a
word starting with a letter, `not word.isupper()` is exactly: some letter of
the word is lowercase). -/
def lowerLeadingWord (l : List Char) : List Char :=
  match l.findIdx? isAsciiLetter with
  | none => l
  | some idx =>
    let word := (l.drop idx).takeWhile isWordChar
    if word.any Char.isLower then
      l.take idx ++ ((l.drop idx).take 1).map Char.toLower ++ l.drop (idx + 1)
    else l

/-- `_normalize_clause`: collapse whitespace, trim trailing punctuation, and
optionally downcase the leading word. -/
def normalize_clause (value : Option String) (lower_leading : Bool) : String :=
  match value with
  | none => ""
  | some s =>
    if s = "" then ""
    else
      let collapsed := collapseWsAux (pyStrip s).data false
      let cleaned := (collapsed.reverse.dropWhile fun c => trailingChars.contains c).reverse
      if lower_leading ∧ ¬ cleaned.isEmpty then ⟨lowerLeadingWord cleaned⟩ else ⟨cleaned⟩

/-- `CONDITIONAL_TEMPLATES["benefits_personal"].format(benefit_detail=...)`. -/
def benefits_personal_fmt (benefit_detail : String) : String :=
  "This study may offer some benefit to you now or others in the future by " ++ benefit_detail

/-- `CONDITIONAL_TEMPLATES["benefits_others"].format(benefit_detail=...)`. -/
def benefits_others_fmt (benefit_detail : String) : String :=
  "This study may not offer any benefit to you now but may benefit others " ++
  "in the future by " ++ benefit_detail

/-- `CONDITIONAL_TEMPLATES["alternatives"].format(alternative_options=...)`. -/
def alternatives_fmt (alternative_options : String) : String :=
  "You can decide not to be in this study. Alternatives to joining this " ++
  "study include " ++ alternative_options ++ ".\n\n"

/-- `CONDITIONAL_TEMPLATES["randomization"]`. -/
def randomization_tpl : String :=
  "This study involves a process called randomization. This means that the " ++
  "drug you receive in the study is not chosen by you or the researcher. " ++
  "The study design divides study participants into separate groups, based on " ++
  "chance (like the flip of a coin), to compare different treatments or procedures. " ++
  "If you decide to be in the study, you need to be comfortable not knowing " ++
  "which study group you will be in."

/-- `CONDITIONAL_TEMPLATES["randomization_device"]`. -/
def randomization_device_tpl : String :=
  "This study involves a process called randomization. This means that the " ++
  "device you receive in the study is not chosen by you or the researcher. " ++
  "The study design divides study participants into separate groups, based on " ++
  "chance (like the flip of a coin), to compare different treatments or procedures. " ++
  "If you decide to be in the study, you need to be comfortable not knowing " ++
  "which study group you will be in."

/-- `CONDITIONAL_TEMPLATES["randomization_procedure"]`. -/
def randomization_procedure_tpl : String :=
  "This study involves a process called randomization. This means that the " ++
  "procedure you receive in the study is not chosen by you or the researcher. " ++
  "The study design divides study participants into separate groups, based on " ++
  "chance (like the flip of a coin), to compare different treatments or procedures. " ++
  "If you decide to be in the study, you need to be comfortable not knowing " ++
  "which study group you will be in."

/-- The fixed washout sentence of `KIExtractionAgent.process`. -/
def washout_sentence : String :=
  "You may need to stop taking certain medications before joining this study. "

/-- Python truthiness of an `Optional[str]`. -/
def optTruthy : Option String → Bool
  | none => false
  | some s => s ≠ ""

/-- `KIExtractionAgent.process`, slot-assembly part (lines 248-335): builds
`slot_values` from the extracted record, in source order (field copies,
biospecimen statement, benefit statement, randomization text, alternatives
sentence, the four `setdefault` calls, then the washout text). -/
def assembleSlots (e : KIExtractionSchema) : List (String × SlotVal) :=
  let m : List (String × SlotVal) := []
  let m := setSlot m "is_pediatric" (.b e.is_pediatric)
  let m := setSlot m "study_type" (.s e.study_type.val)
  let m := setSlot m "article" (.s e.article.val)
  let m := setSlot m "study_object" (.s (normalize_clause (some e.study_object) false))
  let m := setSlot m "population" (.s e.population.val)
  let m := setSlot m "study_purpose" (.s (normalize_clause (some e.study_purpose) true))
  let m := setSlot m "study_goals" (.s (normalize_clause (some e.study_goals) true))
  let m := setSlot m "key_risks" (.s (normalize_clause (some e.key_risks) true))
  let m := setSlot m "study_duration" (.s (normalize_clause (some e.study_duration) false))
  let m := setSlot m "biospecimen_statement"
    (.s (if e.collects_biospecimens then normalize_clause e.biospecimen_details true else ""))
  let benefit_detail := normalize_clause (some e.benefit_description) true
  let m := setSlot m "benefit_statement"
    (.s (if e.has_direct_benefits then benefits_personal_fmt benefit_detail
         else benefits_others_fmt benefit_detail))
  let m := setSlot m "randomization_text"
    (.s (if e.has_randomization then
          (if pySubstr "device" (pyLower e.study_object) then randomization_device_tpl
           else if pySubstr "procedure" (pyLower e.study_object) then randomization_procedure_tpl
           else randomization_tpl)
         else ""))
  let m := setSlot m "alternatives_sentence"
    (.s (if e.affects_treatment && optTruthy e.alternative_options then
          alternatives_fmt (normalize_clause e.alternative_options true)
         else ""))
  let m := setDefault m "randomization_text" (.s "")
  let m := setDefault m "washout_text" (.s "")
  let m := setDefault m "benefit_statement" (.s "")
  let m := setDefault m "study_duration" (.s (normalize_clause (some e.study_duration) false))
  let m := setSlot m "washout_text" (.s (if e.requires_washout then washout_sentence else ""))
  m

/-! ## Section templates (`ki_templates.py`) -/

inductive SlotType where
  | boolean
  | extracted
  | generated
  | conditional
deriving DecidableEq

/-- `TemplateSlot` (the `validation_rules` dict is not read by `render` and
is omitted). -/
structure TemplateSlot where
  name : String
  slot_type : SlotType
  extraction_query : String := ""
  default_value : Option String := none
  max_length : Option Nat := none
deriving DecidableEq

structure SectionTemplate where
  section_id : String
  template_text : String
  slots : List TemplateSlot
  fallback_text : Option String := none
deriving DecidableEq

/-- Python's `s[:n]`. -/
def pyTake (s : String) (n : Nat) : String := ⟨s.data.take n⟩

/-- Python's `s.rsplit(' ', 1)[0]`: everything before the last space, or the
whole string when it has no space. -/
def rsplitBeforeLastSpace (s : String) : String :=
  match s.data.reverse.span fun c => c ≠ ' ' with
  | (_, []) => s
  | (_, _ :: pre) => ⟨pre.reverse⟩

/-- The per-slot value computed inside `SectionTemplate.render`: the
supplied value (defaulting to `default_value or ""` when the key is
missing), truncated when `slot.max_length` is truthy and the value is
strictly longer: keep the first `max_length` characters, cut back to the
last space, append `"..."`. -/
def renderValue (slot : TemplateSlot) (slot_values : List (String × String)) : String :=
  let value := (slot_values.lookup slot.name).getD (slot.default_value.getD "")
  match slot.max_length with
  | none => value
  | some m =>
    if m ≠ 0 ∧ m < value.length then rsplitBeforeLastSpace (pyTake value m) ++ "..."
    else value

/-- Python's `s.replace(pat, rep)` (leftmost, non-overlapping).  Fuel is the
input length; `render`'s patterns `"{name}"` are never empty, so the empty
guard is inert (Python would behave differently there). -/
def replaceAllAux (pat rep : List Char) : Nat → List Char → List Char
  | 0, s => s
  | _ + 1, [] => []
  | fuel + 1, c :: rest =>
    if pat.isPrefixOf (c :: rest) then
      rep ++ replaceAllAux pat rep fuel (List.drop pat.length (c :: rest))
    else c :: replaceAllAux pat rep fuel rest

def pyReplace (s pat rep : String) : String :=
  if pat.data.isEmpty then s else ⟨replaceAllAux pat.data rep.data s.data.length s.data⟩

/-- `SectionTemplate.render`: substitute each slot's processed value for
every occurrence of `\x7bname\x7d` in the template text. -/
def render (t : SectionTemplate) (slot_values : List (String × String)) : String :=
  t.slots.foldl
    (fun res slot => pyReplace res ("\x7b" ++ slot.name ++ "\x7d") (renderValue slot slot_values))
    t.template_text

/-! ## Concrete inputs used by witnesses and counterexamples -/

/-- The validation result returned by the exhausted self-healing run on the
0.4-confidence stub. -/
def returnedVal04 : DocumentValidationResult :=
  { validate_extraction r04 with extraction_attempts := 1, requires_human_review := true }

/-- An empty rule set. -/
def emptyRules : ValidationRuleSet := {}

/-- A context whose single critical field is preserved in the rendered
text. -/
def c2ctx : VContext :=
  { original := [("dose", "10 mg")], rendered := "Take 10 mg daily.",
    rules := emptyRules, critical_values := ["dose"] }

/-- A slot with `max_length = 50` and no default. -/
def overlongSlot : TemplateSlot :=
  { name := "x", slot_type := .generated, max_length := some 50 }

/-- Fifty `a`s followed by `"..."` (53 characters, so strictly longer than
the slot's `max_length`). -/
def sneakyValue : String := ⟨List.replicate 50 'a'⟩ ++ "..."

/-- A template consisting of just the slot `x`. -/
def overlongTemplate : SectionTemplate :=
  { section_id := "s", template_text := "\x7bx\x7d", slots := [overlongSlot] }

/-- The message of an issue operation. -/
def issueOf : ValOp → Option String
  | .issue m => some m
  | _ => none

/-- The message of a warning operation. -/
def warningOf : ValOp → Option String
  | .warning m => some m
  | _ => none

/-- The key/value of a content-analysis write. -/
def analysisOf : ValOp → Option (String × ℚ)
  | .analysis k v => some (k, v)
  | _ => none

/-- The number of critical fields that are present but not preserved. -/
def criticalUnpreserved (ctx : VContext) : Nat :=
  (ctx.critical_values.filter fun f =>
    match ctx.original.lookup f with
    | none => false
    | some v => !(pySubstr v ctx.rendered)).length

/-- The 0.4-confidence record with every boolean gate false (used to witness
the gate-to-empty-slot behaviour). -/
def gatesOff : KIExtractionSchema := { r04 with requires_washout := false }

/-! # Theorems

First a set of helper lemmas about the association-list and accumulator
operations, then, per claim, the claim theorems themselves. -/

theorem lookup_map_replace_self (m : List (String × SlotVal)) (k : String) (v : SlotVal)
    (h : m.any (fun p => p.1 = k) = true) :
    (m.map fun p => if p.1 = k then (k, v) else p).lookup k = some v := by
  induction m with
  | nil => simp at h
  | cons a t ih =>
    rw [List.map_cons]
    by_cases hk : a.1 = k
    · rw [if_pos hk]
      simp [List.lookup]
    · rw [if_neg hk]
      simp only [List.any_cons, decide_eq_true_eq, Bool.or_eq_true, hk, false_or] at h
      simp [List.lookup, beq_false_of_ne (Ne.symm hk), ih h]

theorem lookup_map_replace_ne (m : List (String × SlotVal)) (k k' : String) (v : SlotVal)
    (h : k' ≠ k) :
    (m.map fun p => if p.1 = k then (k, v) else p).lookup k' = m.lookup k' := by
  induction m with
  | nil => rfl
  | cons a t ih =>
    rw [List.map_cons]
    by_cases hk : a.1 = k
    · rw [if_pos hk]
      simp only [List.lookup, beq_false_of_ne h, hk, ih]
    · rw [if_neg hk]
      simp only [List.lookup]
      cases hb : (k' == a.1) <;> simp [ih]

theorem lookup_append_single_self (m : List (String × SlotVal)) (k : String) (v : SlotVal)
    (h : m.any (fun p => p.1 = k) = false) :
    (m ++ [(k, v)]).lookup k = some v := by
  induction m with
  | nil => simp [List.lookup]
  | cons a t ih =>
    simp only [List.any_cons, Bool.or_eq_false_iff, decide_eq_false_iff_not] at h
    rw [List.cons_append]
    simp only [List.lookup, beq_false_of_ne (Ne.symm h.1)]
    exact ih h.2

theorem lookup_append_single_ne (m : List (String × SlotVal)) (k k' : String) (v : SlotVal)
    (h : k' ≠ k) :
    (m ++ [(k, v)]).lookup k' = m.lookup k' := by
  induction m with
  | nil => simp [List.lookup, beq_false_of_ne h]
  | cons a t ih =>
    rw [List.cons_append]
    simp only [List.lookup]
    cases hb : (k' == a.1) <;> simp [ih]

theorem lookup_setSlot_self (m : List (String × SlotVal)) (k : String) (v : SlotVal) :
    (setSlot m k v).lookup k = some v := by
  unfold setSlot
  split
  · exact lookup_map_replace_self m k v (by assumption)
  · rename_i hna
    exact lookup_append_single_self m k v (by rwa [Bool.not_eq_true] at hna)

theorem lookup_setSlot_ne (m : List (String × SlotVal)) (k k' : String) (v : SlotVal)
    (h : k' ≠ k) : (setSlot m k v).lookup k' = m.lookup k' := by
  unfold setSlot
  split
  · exact lookup_map_replace_ne m k k' v h
  · exact lookup_append_single_ne m k k' v h

theorem lookup_setDefault_ne (m : List (String × SlotVal)) (k k' : String) (v : SlotVal)
    (h : k' ≠ k) : (setDefault m k v).lookup k' = m.lookup k' := by
  unfold setDefault
  split
  · rfl
  · exact lookup_append_single_ne m k k' v h

theorem any_key_eq_isSome_lookup (m : List (String × SlotVal)) (k : String) :
    (m.any fun p => p.1 = k) = (m.lookup k).isSome := by
  induction m with
  | nil => rfl
  | cons a t ih =>
    by_cases hk : a.1 = k
    · subst hk
      simp [List.lookup]
    · simp [List.lookup, hk, beq_false_of_ne (Ne.symm hk), ih]

theorem lookup_setDefault_self (m : List (String × SlotVal)) (k : String) (v : SlotVal) :
    (setDefault m k v).lookup k = some ((m.lookup k).getD v) := by
  unfold setDefault
  rw [any_key_eq_isSome_lookup]
  cases h : m.lookup k with
  | none =>
    simp only [h, Option.isSome_none, Bool.false_eq_true, if_false, Option.getD_none]
    exact lookup_append_single_self m k v (by rw [any_key_eq_isSome_lookup, h]; rfl)
  | some w => simp [h]

/-! ### Accumulator lemmas -/

theorem applyOps_passed_inv (ops : List ValOp) : ∀ r : VResults,
    r.passed = decide (r.issues = []) →
    (applyOps r ops).passed = decide ((applyOps r ops).issues = []) := by
  induction ops with
  | nil => intro r h; exact h
  | cons op t ih =>
    intro r h
    refine ih (applyOp r op) ?_
    cases op with
    | issue m => simp [applyOp]
    | warning m => simpa [applyOp] using h
    | info m => simpa [applyOp] using h
    | analysis k v => simpa [applyOp] using h

theorem applyOps_issues (ops : List ValOp) : ∀ r : VResults,
    (applyOps r ops).issues = r.issues ++ ops.filterMap issueOf := by
  induction ops with
  | nil => intro r; simp [applyOps]
  | cons op t ih =>
    intro r
    have step : applyOps r (op :: t) = applyOps (applyOp r op) t := rfl
    rw [step, ih]
    cases op with
    | issue m => simp [applyOp, issueOf]
    | warning m => simp [applyOp, issueOf]
    | info m => simp [applyOp, issueOf]
    | analysis k v => simp [applyOp, issueOf]

theorem applyOps_warnings (ops : List ValOp) : ∀ r : VResults,
    (applyOps r ops).warnings = r.warnings ++ ops.filterMap warningOf := by
  induction ops with
  | nil => intro r; simp [applyOps]
  | cons op t ih =>
    intro r
    have step : applyOps r (op :: t) = applyOps (applyOp r op) t := rfl
    rw [step, ih]
    cases op with
    | issue m => simp [applyOp, warningOf]
    | warning m => simp [applyOp, warningOf]
    | info m => simp [applyOp, warningOf]
    | analysis k v => simp [applyOp, warningOf]

theorem applyOps_analysis (ops : List ValOp) : ∀ r : VResults,
    (applyOps r ops).content_analysis = r.content_analysis ++ ops.filterMap analysisOf := by
  induction ops with
  | nil => intro r; simp [applyOps]
  | cons op t ih =>
    intro r
    have step : applyOps r (op :: t) = applyOps (applyOp r op) t := rfl
    rw [step, ih]
    cases op with
    | issue m => simp [applyOp, analysisOf]
    | warning m => simp [applyOp, analysisOf]
    | info m => simp [applyOp, analysisOf]
    | analysis k v => simp [applyOp, analysisOf]

/-! ### Self-healing loop lemmas -/

theorem extractLoop_failing (ro : Nat → String → Option String) (m : Nat) :
    ∀ (r a : Nat) best bc,
      extractLoop failingOracle ro m r a best bc = finalizeBest best := by
  intro r
  induction r with
  | zero => intro a best bc; rfl
  | succ n ih =>
    intro a best bc
    simp only [extractLoop, failingOracle]
    exact ih (a + 1) best bc

theorem validate_extraction_review (e : KIExtractionSchema) :
    (validate_extraction e).requires_human_review
      = decide ((validate_extraction e).overall_confidence < CONFIDENCE_THRESHOLD) := rfl

theorem extractLoop_review_inv (oracle : Nat → Option KIExtractionSchema)
    (ro : Nat → String → Option String) (m : Nat) :
    ∀ (r a : Nat) best bc,
      (∀ e v s, best = some (e, v, s) →
        v.requires_human_review = decide (v.overall_confidence < CONFIDENCE_THRESHOLD)) →
      ∀ v', (extractLoop oracle ro m r a best bc).validation = some v' →
        v'.requires_human_review = decide (v'.overall_confidence < CONFIDENCE_THRESHOLD) := by
  intro r
  induction r with
  | zero =>
    intro a best bc hinv v' hv
    cases best with
    | none => simp [extractLoop, finalizeBest] at hv
    | some b =>
      obtain ⟨e, v, s⟩ := b
      simp only [extractLoop, finalizeBest] at hv
      split at hv
      · rename_i hlt
        simp only [Option.some.injEq] at hv
        subst hv
        simpa using hlt
      · simp only [Option.some.injEq] at hv
        subst hv
        exact hinv e v s rfl
  | succ n ih =>
    intro a best bc hinv v' hv
    simp only [extractLoop] at hv
    cases horacle : oracle a with
    | none =>
      rw [horacle] at hv
      exact ih (a + 1) best bc hinv v' hv
    | some e =>
      rw [horacle] at hv
      simp only [] at hv
      split at hv
      · simp only [Option.some.injEq] at hv
        subst hv
        exact validate_extraction_review e
      · refine ih (a + 1) _ _ ?_ v' hv
        intro e2 v2 s2 h2
        split at h2
        · simp only [Option.some.injEq, Prod.mk.injEq] at h2
          obtain ⟨-, h2v, -⟩ := h2
          subst h2v
          exact validate_extraction_review e
        · exact hinv e2 v2 s2 h2

theorem refineFieldStep_noop (v : DocumentValidationResult) (acc : KIExtractionSchema)
    (name : String) : refineFieldStep (fun _ => none) v acc name = acc := by
  unfold refineFieldStep
  cases v.field_results.lookup name with
  | none => rfl
  | some fr =>
    simp only []
    split <;> rfl

theorem refine_noop (e : KIExtractionSchema) (v : DocumentValidationResult) :
    refineProblematicFields (fun _ => none) e v = e := by
  unfold refineProblematicFields
  generalize get_problematic_fields v = l
  induction l generalizing e with
  | nil => rfl
  | cons a t ih =>
    rw [List.foldl_cons, refineFieldStep_noop]
    exact ih e

theorem extractLoop_snapshot_inv (oracle : Nat → Option KIExtractionSchema) (m : Nat) :
    ∀ (r a : Nat) best bc,
      (∀ e v s, best = some (e, v, s) → e = s) →
      ∀ s', (extractLoop oracle failingRefine m r a best bc).bestSnapshot = some s' →
        (extractLoop oracle failingRefine m r a best bc).record = some s' := by
  intro r
  induction r with
  | zero =>
    intro a best bc hinv s' hs
    cases best with
    | none => simp [extractLoop, finalizeBest] at hs
    | some b =>
      obtain ⟨e, v, s⟩ := b
      have he : e = s := hinv e v s rfl
      subst he
      simp only [extractLoop, finalizeBest] at hs ⊢
      by_cases hc : v.overall_confidence < CONFIDENCE_THRESHOLD
      · rw [if_pos hc] at hs ⊢
        simp only [Option.some.injEq] at hs
        rw [hs]
      · rw [if_neg hc] at hs ⊢
        simp only [Option.some.injEq] at hs
        rw [hs]
  | succ n ih =>
    intro a best bc hinv s' hs
    simp only [extractLoop] at hs ⊢
    cases horacle : oracle a with
    | none =>
      try rw [horacle] at hs
      try rw [horacle]
      exact ih (a + 1) best bc hinv s' hs
    | some e =>
      try rw [horacle] at hs
      try rw [horacle]
      simp only [] at hs ⊢
      split at hs
      · simp at hs
      · rename_i hth
        rw [if_neg hth]
        refine ih (a + 1) _ _ ?_ s' hs
        intro e2 v2 s2 h2
        split at h2
        · simp only [Option.some.injEq, Prod.mk.injEq] at h2
          obtain ⟨h2e, -, h2s⟩ := h2
          subst h2e
          subst h2s
          split
          · exact refine_noop e _
          · rfl
        · exact hinv e2 v2 s2 h2

/-! ### CriticalValueValidator lemmas -/

theorem criticalRun_issues (ctx : VContext) :
    (criticalRun ctx).issues =
      ctx.critical_values.filterMap fun f =>
        match ctx.original.lookup f with
        | none => none
        | some v =>
          if pySubstr v ctx.rendered then none
          else some ("Critical value '" ++ v ++ "' for field '" ++ f ++ "' not preserved") := by
  unfold criticalRun criticalValueOps
  rw [applyOps_issues, List.filterMap_append]
  show [] ++ _ = _
  rw [List.nil_append]
  have htail : (if 0 < criticalTotal ctx then
      [ValOp.analysis "critical_value_preservation" (criticalRate ctx)] ++
        (if criticalRate ctx < 1 then
          [ValOp.warning "Critical value preservation rate below 100%"] else [])
    else ([] : List ValOp)).filterMap issueOf = [] := by
    split
    · rw [List.filterMap_append]
      split <;> simp [issueOf]
    · rfl
  rw [htail, List.append_nil]
  unfold criticalIssueOps
  rw [List.filterMap_filterMap]
  apply List.filterMap_congr
  intro f _
  cases ctx.original.lookup f with
  | none => rfl
  | some v =>
    simp only []
    split <;> simp [issueOf]

theorem criticalIssueOps_warningOf (ctx : VContext) :
    (criticalIssueOps ctx).filterMap warningOf = [] := by
  unfold criticalIssueOps
  rw [List.filterMap_filterMap, List.filterMap_eq_nil_iff]
  intro f _
  cases ctx.original.lookup f with
  | none => rfl
  | some v =>
    simp only []
    split <;> simp [warningOf]

theorem criticalIssueOps_analysisOf (ctx : VContext) :
    (criticalIssueOps ctx).filterMap analysisOf = [] := by
  unfold criticalIssueOps
  rw [List.filterMap_filterMap, List.filterMap_eq_nil_iff]
  intro f _
  cases ctx.original.lookup f with
  | none => rfl
  | some v =>
    simp only []
    split <;> simp [analysisOf]

theorem criticalRun_warnings (ctx : VContext) :
    (criticalRun ctx).warnings =
      if 0 < criticalTotal ctx then
        (if criticalRate ctx < 1 then
          ["Critical value preservation rate below 100%"] else [])
      else [] := by
  unfold criticalRun criticalValueOps
  rw [applyOps_warnings, List.filterMap_append, criticalIssueOps_warningOf]
  show [] ++ ([] ++ _) = _
  rw [List.nil_append, List.nil_append]
  split
  · rw [List.filterMap_append]
    split <;> simp [warningOf]
  · rfl

theorem criticalRun_analysis (ctx : VContext) :
    (criticalRun ctx).content_analysis =
      if 0 < criticalTotal ctx then
        [("critical_value_preservation", criticalRate ctx)]
      else [] := by
  unfold criticalRun criticalValueOps
  rw [applyOps_analysis, List.filterMap_append, criticalIssueOps_analysisOf]
  show [] ++ ([] ++ _) = _
  rw [List.nil_append, List.nil_append]
  split
  · rw [List.filterMap_append]
    split <;> simp [analysisOf]
  · rfl

theorem criticalRun_issues_empty_iff (ctx : VContext) :
    (criticalRun ctx).issues = [] ↔
      ∀ f ∈ ctx.critical_values, ∀ v, ctx.original.lookup f = some v →
        pySubstr v ctx.rendered = true := by
  rw [criticalRun_issues, List.filterMap_eq_nil_iff]
  constructor
  · intro h f hf v hv
    have := h f hf
    rw [hv] at this
    by_cases hsub : pySubstr v ctx.rendered = true
    · exact hsub
    · simp only [hsub, Bool.false_eq_true, if_false] at this
      simp at this
  · intro h f hf
    cases hv : ctx.original.lookup f with
    | none => rfl
    | some v =>
      simp only [h f hf v hv, if_true]

theorem criticalRun_issues_length (ctx : VContext) :
    (criticalRun ctx).issues.length = criticalUnpreserved ctx := by
  rw [criticalRun_issues]
  unfold criticalUnpreserved
  generalize ctx.critical_values = l
  induction l with
  | nil => rfl
  | cons f t ih =>
    rw [List.filterMap_cons, List.filter_cons]
    cases hv : ctx.original.lookup f with
    | none => simpa using ih
    | some v =>
      by_cases hsub : pySubstr v ctx.rendered = true
      · simp only [hsub, if_true, Bool.not_true]
        simpa using ih
      · have hsub' : pySubstr v ctx.rendered = false := by
          rwa [Bool.not_eq_true] at hsub
        simp only [hsub', Bool.false_eq_true, if_false, Bool.not_false, if_true,
          List.length_cons, List.length_cons]
        simpa using ih

theorem criticalPreserved_eq_total (ctx : VContext)
    (h : ∀ f ∈ ctx.critical_values, ∀ v, ctx.original.lookup f = some v →
      pySubstr v ctx.rendered = true) :
    criticalPreserved ctx = criticalTotal ctx := by
  unfold criticalPreserved criticalTotal
  congr 1
  apply List.filter_congr
  intro f hf
  cases hv : ctx.original.lookup f with
  | none => rfl
  | some v => simp [h f hf v hv]

theorem criticalRate_one (ctx : VContext) (ht : 0 < criticalTotal ctx)
    (h : ∀ f ∈ ctx.critical_values, ∀ v, ctx.original.lookup f = some v →
      pySubstr v ctx.rendered = true) :
    criticalRate ctx = 1 := by
  unfold criticalRate
  rw [criticalPreserved_eq_total ctx h]
  have : (criticalTotal ctx : ℚ) ≠ 0 := by
    exact_mod_cast Nat.pos_iff_ne_zero.mp ht
  exact div_self this

/-! ### Claim theorems -/

/-- C1: when the extraction call raises on every one of the `max_attempts`
attempts, `extract_with_validation` does not surface a hard error to the
caller: it falls through the loop with no best candidate and returns the
record-less, validation-less response `(None, None)` — contradicting the
requirement that exhausting all attempts without ever producing a record
propagates a hard error (and the function's own return contract of a
non-null record/result pair). -/
theorem C1_all_attempts_fail_returns_none (ro : Nat → String → Option String) (n : Nat) :
    extract_with_validation failingOracle ro n =
      ⟨none, none, none⟩ := by
  unfold extract_with_validation
  rw [extractLoop_failing]
  rfl

/-- C2: `CriticalValueValidator` adds an issue for a critical field present
in the record exactly when the field's exact string value is not a substring
of the rendered text (the issue list is empty iff every present critical
field is preserved, and its length is the number of present-but-unpreserved
fields); when every present critical field is preserved and at least one is
present, it produces zero issues, a passing verdict, preservation rate
`1` and no warning; and it adds the preservation-rate warning exactly when
some critical field is present and the rate is below 100%. -/
theorem C2_critical_value_preservation (ctx : VContext) :
    ((criticalRun ctx).issues = [] ↔
      ∀ f ∈ ctx.critical_values, ∀ v, ctx.original.lookup f = some v →
        pySubstr v ctx.rendered = true)
    ∧ (criticalRun ctx).issues.length = criticalUnpreserved ctx
    ∧ ((∀ f ∈ ctx.critical_values, ∀ v, ctx.original.lookup f = some v →
          pySubstr v ctx.rendered = true) →
        0 < criticalTotal ctx →
        (criticalRun ctx).issues = [] ∧ (criticalRun ctx).passed = true ∧
        (criticalRun ctx).content_analysis = [("critical_value_preservation", 1)] ∧
        (criticalRun ctx).warnings = [])
    ∧ (¬ (criticalRun ctx).warnings = [] ↔
        (0 < criticalTotal ctx ∧ criticalRate ctx < 1)) := by
  refine ⟨criticalRun_issues_empty_iff ctx, criticalRun_issues_length ctx, ?_, ?_⟩
  · intro h ht
    have hiss : (criticalRun ctx).issues = [] := (criticalRun_issues_empty_iff ctx).mpr h
    have hrate := criticalRate_one ctx ht h
    refine ⟨hiss, ?_, ?_, ?_⟩
    · have hp := applyOps_passed_inv (criticalValueOps ctx) initResults rfl
      unfold criticalRun at hiss ⊢
      rw [hp, hiss]
      rfl
    · rw [criticalRun_analysis, if_pos ht, hrate]
    · rw [criticalRun_warnings, if_pos ht, hrate, if_neg (by norm_num)]
  · rw [criticalRun_warnings]
    constructor
    · intro hw
      by_cases ht : 0 < criticalTotal ctx
      · rw [if_pos ht] at hw
        by_cases hr : criticalRate ctx < 1
        · exact ⟨ht, hr⟩
        · rw [if_neg hr] at hw
          exact absurd rfl hw
      · rw [if_neg ht] at hw
        exact absurd rfl hw
    · rintro ⟨ht, hr⟩
      rw [if_pos ht, if_pos hr]
      simp

/-- C2 witness: the context `c2ctx` (one critical field, preserved) makes
the hypotheses of the all-preserved branch concrete. -/
theorem C2_witness :
    ((criticalRun c2ctx).issues = [] ↔
      ∀ f ∈ c2ctx.critical_values, ∀ v, c2ctx.original.lookup f = some v →
        pySubstr v c2ctx.rendered = true)
    ∧ (∀ f ∈ c2ctx.critical_values, ∀ v, c2ctx.original.lookup f = some v →
        pySubstr v c2ctx.rendered = true)
    ∧ 0 < criticalTotal c2ctx
    ∧ (criticalRun c2ctx).issues = [] ∧ (criticalRun c2ctx).passed = true ∧
      (criticalRun c2ctx).content_analysis = [("critical_value_preservation", 1)] ∧
      (criticalRun c2ctx).warnings = [] := by
  have hpres : ∀ f ∈ c2ctx.critical_values, ∀ v, c2ctx.original.lookup f = some v →
      pySubstr v c2ctx.rendered = true := by
    intro f hf v hv
    fin_cases hf
    have h2 : List.lookup "dose" c2ctx.original = some "10 mg" := by with_unfolding_all rfl
    rw [h2, Option.some.injEq] at hv
    subst hv
    with_unfolding_all decide
  have ht : 0 < criticalTotal c2ctx := by with_unfolding_all decide
  exact ⟨(C2_critical_value_preservation c2ctx).1, hpres, ht,
    (C2_critical_value_preservation c2ctx).2.2.1 hpres ht⟩

/-- C3 counterexample: with the stub extraction service whose result always
validates at overall confidence 0.4 and `max_attempts = 3`, the validation
result returned after exhaustion carries `extraction_attempts = 1` — the
attempt index of the first (strictly best) attempt — not `3` as the claim
states. -/
theorem C3_counterexample_attempts_is_one_not_three :
    ((extract_with_validation stubOracle04 failingRefine 3).validation.map
        fun v => v.extraction_attempts) = some 1 ∧
    ¬ ((extract_with_validation stubOracle04 failingRefine 3).validation.map
        fun v => v.extraction_attempts) = some 3 := by
  with_unfolding_all decide

/-- C3 (amended): with a stub whose results always validate at overall
confidence 0.4 and `max_attempts = 3`, `extract_with_validation` returns the
highest-confidence attempt's record with `requires_human_review = true`, and
the returned validation result has `extraction_attempts = 1`, because the
best slot keeps the first attempt (the comparison is strict and all attempts
tie at 0.4) and `extraction_attempts` is stamped per attempt, not with the
total attempt count. -/
theorem C3_exhausted_stub_returns_best_flagged :
    (extract_with_validation stubOracle04 failingRefine 3).record = some r04 ∧
    (extract_with_validation stubOracle04 failingRefine 3).validation = some returnedVal04 ∧
    returnedVal04.overall_confidence = 0.4 ∧
    returnedVal04.requires_human_review = true ∧
    returnedVal04.extraction_attempts = 1 := by
  with_unfolding_all decide

/-- C4: every `DocumentValidationResult` built by `validate_extraction` has
`overall_confidence = 0.7 * mean(field confidences) + 0.3 * cross-field
confidence` and `requires_human_review ↔ overall_confidence <
CONFIDENCE_THRESHOLD`; and every validation result the self-healing pipeline
returns to the caller (early acceptance or exhaustion, any oracles, any
`max_attempts`) satisfies that same invariant. -/
theorem C4_confidence_formula_and_review_invariant :
    (∀ e : KIExtractionSchema,
      (validate_extraction e).overall_confidence
          = 0.7 * fieldMean e + 0.3 * (crossValidate e).2
        ∧ ((validate_extraction e).requires_human_review
            ↔ (validate_extraction e).overall_confidence < CONFIDENCE_THRESHOLD))
    ∧ (∀ (oracle : Nat → Option KIExtractionSchema) (ro : Nat → String → Option String)
        (n : Nat) (v : DocumentValidationResult),
        (extract_with_validation oracle ro n).validation = some v →
        (v.requires_human_review ↔ v.overall_confidence < CONFIDENCE_THRESHOLD)) := by
  constructor
  · intro e
    constructor
    · show fieldMean e * 0.7 + (crossValidate e).2 * 0.3
        = 0.7 * fieldMean e + 0.3 * (crossValidate e).2
      ring
    · rw [validate_extraction_review]
      exact decide_eq_true_iff
  · intro oracle ro n v hv
    have := extractLoop_review_inv oracle ro n n 0 none 0 (by intro e v s h; cases h) v hv
    rw [this]
    exact decide_eq_true_iff

/-- C4 witness: the invariant instantiated on the concrete record `r04` and
on the validation result actually returned by a concrete exhausted run. -/
theorem C4_witness :
    ((validate_extraction r04).requires_human_review
      ↔ (validate_extraction r04).overall_confidence < CONFIDENCE_THRESHOLD)
    ∧ (extract_with_validation stubOracle04 failingRefine 3).validation = some returnedVal04
    ∧ (returnedVal04.requires_human_review
        ↔ returnedVal04.overall_confidence < CONFIDENCE_THRESHOLD) :=
  ⟨(C4_confidence_formula_and_review_invariant.1 r04).2,
   by with_unfolding_all decide,
   C4_confidence_formula_and_review_invariant.2 stubOracle04 failingRefine 3 returnedVal04
     (by with_unfolding_all decide)⟩

/-- C5 counterexample: a run in which the first attempt's record (duration
empty, so `needs_reextraction`) is stored as best and then refined in place:
the returned best record differs from the value it had when it was stored
(`study_duration` was reassigned from `""` to `"6 months"` by `setattr`), so
a previously produced, retained record was mutated after production. -/
theorem C5_counterexample_best_record_mutated :
    (extract_with_validation firstOnlyOracle durationRefine 3).bestSnapshot = some r04 ∧
    (extract_with_validation firstOnlyOracle durationRefine 3).record =
      some { r04 with study_duration := "6 months" } ∧
    ¬ (extract_with_validation firstOnlyOracle durationRefine 3).record =
      (extract_with_validation firstOnlyOracle durationRefine 3).bestSnapshot := by
  with_unfolding_all decide

/-- C5 (amended): each attempt produces a new record, and the best slot is
replaced wholesale — but the current attempt's record (which the best slot
may alias) is mutated in place by `_refine_problematic_fields` when a
targeted field re-extraction succeeds.  Absent any successful refinement
(the refine LLM raising on every call), the returned best record is exactly
the record as it was when stored. -/
theorem C5_best_replaced_wholesale_without_refinement
    (oracle : Nat → Option KIExtractionSchema) (n : Nat) (s : KIExtractionSchema)
    (h : (extract_with_validation oracle failingRefine n).bestSnapshot = some s) :
    (extract_with_validation oracle failingRefine n).record = some s := by
  unfold extract_with_validation at h ⊢
  exact extractLoop_snapshot_inv oracle n n 0 none 0 (by intro e v s2 hx; cases hx) s h

/-- C5 witness: with the 0.4-confidence stub and a refine LLM that always
raises, the stored best record is returned unchanged. -/
theorem C5_witness :
    (extract_with_validation stubOracle04 failingRefine 3).bestSnapshot = some r04 ∧
    (extract_with_validation stubOracle04 failingRefine 3).record = some r04 :=
  ⟨by with_unfolding_all decide,
   C5_best_replaced_wholesale_without_refinement stubOracle04 3 r04
     (by with_unfolding_all decide)⟩

/-- C6: for every run of the post-render validation orchestrator (any
content/structural validator behaviour, any metrics, any context), the
returned `passed` flag is true exactly when the issue list is empty; and the
warning/info accumulator operations never change `passed`. -/
theorem C6_passed_iff_issue_free (contentOps structuralOps : VContext → List ValOp)
    (metrics : List (String × ℚ)) (ctx : VContext) :
    ((orchestratorValidate contentOps structuralOps metrics ctx).passed
      = decide ((orchestratorValidate contentOps structuralOps metrics ctx).issues = []))
    ∧ (∀ (r : VResults) (msg : String),
        (applyOp r (ValOp.warning msg)).passed = r.passed ∧
        (applyOp r (ValOp.info msg)).passed = r.passed) := by
  constructor
  · unfold orchestratorValidate
    simp only []
    exact applyOps_passed_inv _ initResults rfl
  · intro r msg
    exact ⟨rfl, rfl⟩

/-- C7 (amended): for every input that is the empty string or one of the
placeholder tokens `"not specified"`, `"varies"`, `"unknown"`, `"tbd"`
(case-insensitive), the duration validator returns `is_valid = false`,
confidence exactly 0 and `needs_reextraction = true`; the input
`"the study period"` is *not* in the validator's placeholder list — it falls
through to the unparseable-format branch and gets `is_valid = false`,
`needs_reextraction = true`, and confidence 0.2 (not 0). -/
theorem C7_placeholder_rejection :
    (∀ v : String, pyLower v ∈ durationPlaceholders →
      (validate_duration v).is_valid = false ∧ (validate_duration v).confidence = 0 ∧
      (validate_duration v).needs_reextraction = true)
    ∧ ((validate_duration "the study period").is_valid = false ∧
       (validate_duration "the study period").confidence = 0.2 ∧
       (validate_duration "the study period").needs_reextraction = true) := by
  constructor
  · intro v hv
    unfold validate_duration
    rw [if_pos (Or.inr (by simpa using hv))]
    exact ⟨rfl, rfl, rfl⟩
  · with_unfolding_all decide

/-- C7 counterexample: contrary to the claim, the placeholder token
`"the study period"` does not get confidence exactly 0 from the duration
validator (it gets 0.2, via the unparseable-format branch). -/
theorem C7_counterexample_study_period :
    ¬ (validate_duration "the study period").confidence = 0 := by
  with_unfolding_all decide

/-- C7 witness: the placeholder branch evaluated at the concrete
(mixed-case) input `"VaRiEs"`. -/
theorem C7_witness :
    pyLower "VaRiEs" ∈ durationPlaceholders ∧
    (validate_duration "VaRiEs").is_valid = false ∧
    (validate_duration "VaRiEs").confidence = 0 ∧
    (validate_duration "VaRiEs").needs_reextraction = true := by
  have hm : pyLower "VaRiEs" ∈ durationPlaceholders := by with_unfolding_all decide
  exact ⟨hm, C7_placeholder_rejection.1 "VaRiEs" hm⟩

/-- C8: the per-document-type consistency metrics satisfy
`coefficient_of_variation = stddev(word_counts)/mean(word_counts) * 100`
whenever there are at least 2 samples and the mean is non-zero, and equal 0
when there are fewer than 2 samples or the mean is 0 — hence 0 for every
constant sequence (such as `[120, 120, 120]`, where the standard deviation
vanishes); `structural_consistency = 1 - (unique_hashes - 1)/total_runs`,
and equals 1 whenever there are fewer than 2 samples. -/
theorem C8_consistency_metrics :
    (∀ xs : List ℤ, 2 ≤ xs.length → npMean xs ≠ 0 →
        calculate_coefficient_of_variation xs = (npStd xs / ((npMean xs : ℚ) : ℝ)) * 100)
    ∧ (∀ xs : List ℤ, xs.length < 2 ∨ npMean xs = 0 →
        calculate_coefficient_of_variation xs = 0)
    ∧ (∀ (n : Nat) (c : ℤ), calculate_coefficient_of_variation (List.replicate n c) = 0)
    ∧ (∀ hs : List String, hs.length < 2 → calculate_structural_consistency hs = 1)
    ∧ (∀ hs : List String, 2 ≤ hs.length →
        calculate_structural_consistency hs =
          1 - ((hs.dedup.length : ℚ) - 1) / (hs.length : ℚ)) := by
  have covfm : ∀ xs : List ℤ, 2 ≤ xs.length → npMean xs ≠ 0 →
      calculate_coefficient_of_variation xs = (npStd xs / ((npMean xs : ℚ) : ℝ)) * 100 := by
    intro xs h1 h2
    unfold calculate_coefficient_of_variation
    rw [if_neg (by omega), if_neg h2]
  refine ⟨covfm, ?_, ?_, ?_, ?_⟩
  · intro xs h
    unfold calculate_coefficient_of_variation
    by_cases h1 : xs.length < 2
    · rw [if_pos h1]
    · rw [if_neg h1]
      rcases h with h | h
      · exact absurd h h1
      · rw [if_pos h]
  · intro n c
    by_cases h1 : (List.replicate n c).length < 2
    · unfold calculate_coefficient_of_variation
      rw [if_pos h1]
    · have hn : n ≠ 0 := by
        simp only [List.length_replicate] at h1
        omega
      have hmean : npMean (List.replicate n c) = (c : ℚ) := by
        unfold npMean
        rw [List.map_replicate, List.sum_replicate, List.length_replicate, nsmul_eq_mul]
        exact mul_div_cancel_left₀ _ (by exact_mod_cast hn)
      by_cases hz : (c : ℚ) = 0
      · unfold calculate_coefficient_of_variation
        rw [if_neg h1, if_pos (by rw [hmean]; exact hz)]
      · have hstd : npStd (List.replicate n c) = 0 := by
          unfold npStd
          rw [hmean, List.map_replicate]
          simp only [Rat.cast_intCast, sub_self, ne_eq, OfNat.ofNat_ne_zero,
            not_false_eq_true, zero_pow, List.sum_replicate, smul_zero, zero_div,
            Real.sqrt_zero]
        unfold calculate_coefficient_of_variation
        rw [if_neg h1, if_neg (by rw [hmean]; exact hz), hstd, zero_div, zero_mul]
  · intro hs h
    unfold calculate_structural_consistency
    rw [if_pos h]
  · intro hs h
    unfold calculate_structural_consistency
    rw [if_neg (by omega)]

/-- C8 witness: the metric formulas evaluated at concrete sample lists. -/
theorem C8_witness :
    (2 ≤ ([1, 2] : List ℤ).length ∧ npMean [1, 2] ≠ 0 ∧
      calculate_coefficient_of_variation [1, 2]
        = (npStd [1, 2] / ((npMean [1, 2] : ℚ) : ℝ)) * 100)
    ∧ calculate_coefficient_of_variation [120, 120, 120] = 0
    ∧ (([5] : List ℤ).length < 2 ∧ calculate_coefficient_of_variation [5] = 0)
    ∧ ((["h"] : List String).length < 2 ∧ calculate_structural_consistency ["h"] = 1)
    ∧ (2 ≤ (["a", "b"] : List String).length ∧
        calculate_structural_consistency ["a", "b"]
          = 1 - (((["a", "b"] : List String).dedup.length : ℚ) - 1)
              / ((["a", "b"] : List String).length : ℚ)) := by
  have hm : npMean [1, 2] ≠ 0 := by with_unfolding_all decide
  refine ⟨⟨by decide, hm, C8_consistency_metrics.1 [1, 2] (by decide) hm⟩, ?_, ?_, ?_, ?_⟩
  · rw [show ([120, 120, 120] : List ℤ) = List.replicate 3 120 from rfl]
    exact C8_consistency_metrics.2.2.1 3 120
  · exact ⟨by decide, C8_consistency_metrics.2.1 [5] (Or.inl (by decide))⟩
  · exact ⟨by decide, C8_consistency_metrics.2.2.2.1 ["h"] (by decide)⟩
  · exact ⟨by decide, C8_consistency_metrics.2.2.2.2 ["a", "b"] (by decide)⟩

/-! ### Slot-map lookups of the assembler -/

theorem assembleSlots_washout (e : KIExtractionSchema) :
    (assembleSlots e).lookup "washout_text" =
      some (SlotVal.s (if e.requires_washout then washout_sentence else "")) := by
  simp only [assembleSlots]
  rw [lookup_setSlot_self]

theorem assembleSlots_randomization (e : KIExtractionSchema) :
    (assembleSlots e).lookup "randomization_text" =
      some (SlotVal.s (if e.has_randomization then
          (if pySubstr "device" (pyLower e.study_object) then randomization_device_tpl
           else if pySubstr "procedure" (pyLower e.study_object) then
             randomization_procedure_tpl
           else randomization_tpl)
        else "")) := by
  simp only [assembleSlots]
  rw [lookup_setSlot_ne _ _ _ _ (by simp), lookup_setDefault_ne _ _ _ _ (by simp),
      lookup_setDefault_ne _ _ _ _ (by simp), lookup_setDefault_ne _ _ _ _ (by simp),
      lookup_setDefault_self, lookup_setSlot_ne _ _ _ _ (by simp), lookup_setSlot_self]
  rfl

theorem assembleSlots_alternatives (e : KIExtractionSchema) :
    (assembleSlots e).lookup "alternatives_sentence" =
      some (SlotVal.s (if e.affects_treatment && optTruthy e.alternative_options then
          alternatives_fmt (normalize_clause e.alternative_options true)
        else "")) := by
  simp only [assembleSlots]
  rw [lookup_setSlot_ne _ _ _ _ (by simp), lookup_setDefault_ne _ _ _ _ (by simp),
      lookup_setDefault_ne _ _ _ _ (by simp), lookup_setDefault_ne _ _ _ _ (by simp),
      lookup_setDefault_ne _ _ _ _ (by simp), lookup_setSlot_self]

theorem assembleSlots_biospecimen (e : KIExtractionSchema) :
    (assembleSlots e).lookup "biospecimen_statement" =
      some (SlotVal.s (if e.collects_biospecimens then
          normalize_clause e.biospecimen_details true
        else "")) := by
  simp only [assembleSlots]
  rw [lookup_setSlot_ne _ _ _ _ (by simp), lookup_setDefault_ne _ _ _ _ (by simp),
      lookup_setDefault_ne _ _ _ _ (by simp), lookup_setDefault_ne _ _ _ _ (by simp),
      lookup_setDefault_ne _ _ _ _ (by simp), lookup_setSlot_ne _ _ _ _ (by simp),
      lookup_setSlot_ne _ _ _ _ (by simp), lookup_setSlot_ne _ _ _ _ (by simp),
      lookup_setSlot_self]

theorem assembleSlots_benefit (e : KIExtractionSchema) :
    (assembleSlots e).lookup "benefit_statement" =
      some (SlotVal.s (if e.has_direct_benefits then
          benefits_personal_fmt (normalize_clause (some e.benefit_description) true)
        else benefits_others_fmt (normalize_clause (some e.benefit_description) true))) := by
  simp only [assembleSlots]
  rw [lookup_setSlot_ne _ _ _ _ (by simp), lookup_setDefault_ne _ _ _ _ (by simp),
      lookup_setDefault_self, lookup_setDefault_ne _ _ _ _ (by simp),
      lookup_setDefault_ne _ _ _ _ (by simp), lookup_setSlot_ne _ _ _ _ (by simp),
      lookup_setSlot_ne _ _ _ _ (by simp), lookup_setSlot_self]
  rfl

/-- C9 (amended): in the slot map assembled by the extraction agent, the
slots gated by `has_randomization`, `requires_washout`,
`collects_biospecimens` and `affects_treatment` hold the empty string
whenever their gate is false, and are always present (never null/missing);
the direct-benefit composite slot is likewise always present, but a false
`has_direct_benefits` selects the non-empty "benefit others" sentence
template (with the same detail text) rather than an empty string. -/
theorem C9_gate_false_slots (e : KIExtractionSchema) :
    (e.has_randomization = false →
      (assembleSlots e).lookup "randomization_text" = some (SlotVal.s "")) ∧
    (e.requires_washout = false →
      (assembleSlots e).lookup "washout_text" = some (SlotVal.s "")) ∧
    (e.collects_biospecimens = false →
      (assembleSlots e).lookup "biospecimen_statement" = some (SlotVal.s "")) ∧
    (e.affects_treatment = false →
      (assembleSlots e).lookup "alternatives_sentence" = some (SlotVal.s "")) ∧
    ((assembleSlots e).lookup "benefit_statement" =
      some (SlotVal.s (if e.has_direct_benefits then
          benefits_personal_fmt (normalize_clause (some e.benefit_description) true)
        else benefits_others_fmt (normalize_clause (some e.benefit_description) true)))) := by
  refine ⟨?_, ?_, ?_, ?_, assembleSlots_benefit e⟩
  · intro h
    rw [assembleSlots_randomization, h]
    rfl
  · intro h
    rw [assembleSlots_washout, h]
    rfl
  · intro h
    rw [assembleSlots_biospecimen, h]
    rfl
  · intro h
    rw [assembleSlots_alternatives, h]
    rfl

/-- C9 witness: the empty-string gate behaviour on a concrete record with
all four gates false. -/
theorem C9_witness :
    gatesOff.has_randomization = false ∧ gatesOff.requires_washout = false ∧
    gatesOff.collects_biospecimens = false ∧ gatesOff.affects_treatment = false ∧
    (assembleSlots gatesOff).lookup "randomization_text" = some (SlotVal.s "") ∧
    (assembleSlots gatesOff).lookup "washout_text" = some (SlotVal.s "") ∧
    (assembleSlots gatesOff).lookup "biospecimen_statement" = some (SlotVal.s "") ∧
    (assembleSlots gatesOff).lookup "alternatives_sentence" = some (SlotVal.s "") :=
  ⟨rfl, rfl, rfl, rfl,
   (C9_gate_false_slots gatesOff).1 rfl,
   (C9_gate_false_slots gatesOff).2.1 rfl,
   (C9_gate_false_slots gatesOff).2.2.1 rfl,
   (C9_gate_false_slots gatesOff).2.2.2.1 rfl⟩

/-- C9 counterexample: on a concrete record with `has_direct_benefits =
false`, the direct-benefit composite slot is a non-empty sentence (the
"benefit others" template), not the empty string the claim requires for a
false gate. -/
theorem C9_counterexample_benefit_gate_not_empty :
    r04.has_direct_benefits = false ∧
    (assembleSlots r04).lookup "benefit_statement" =
      some (SlotVal.s (benefits_others_fmt "parent")) ∧
    ¬ (assembleSlots r04).lookup "benefit_statement" = some (SlotVal.s "") := by
  with_unfolding_all decide

/-! ### Template-render lemmas -/

theorem rsplitBeforeLastSpace_length_le (s : String) :
    (rsplitBeforeLastSpace s).length ≤ s.length := by
  unfold rsplitBeforeLastSpace
  rw [List.span_eq_take_drop]
  cases hdw : s.data.reverse.dropWhile (fun c => c ≠ ' ') with
  | nil => exact le_refl _
  | cons c pre =>
    have hsub : (c :: pre).length ≤ s.data.reverse.length := by
      rw [← hdw]
      exact (List.dropWhile_sublist _).length_le
    simp only [List.length_cons, List.length_reverse] at hsub
    show pre.reverse.length ≤ s.data.length
    rw [List.length_reverse]
    omega

theorem pyTake_length_le (v : String) (m : Nat) : (pyTake v m).length ≤ m := by
  show (v.data.take m).length ≤ m
  rw [List.length_take]
  exact min_le_left _ _

/-- C10 (amended): for a slot with a positive `max_length` and a supplied
value strictly longer than it, `render` substitutes the value truncated to
`max_length` characters, cut back to the last space, with `"..."` appended
(a string of at most `max_length + 3` characters) — though this processed
string can coincide with, or contain, the supplied value (see the
counterexample), so over-long values are not guaranteed to be absent from
the rendered section; for a slot with no supplied value, `render`
substitutes the slot's `default_value` or the empty string instead of
failing, exactly as if that default had been supplied. -/
theorem C10_render_truncation_and_defaults :
    (∀ (slot : TemplateSlot) (values : List (String × String)) (m : Nat) (v : String),
        slot.max_length = some m → 0 < m → values.lookup slot.name = some v →
        m < v.length →
        renderValue slot values = rsplitBeforeLastSpace (pyTake v m) ++ "..." ∧
        (renderValue slot values).length ≤ m + 3)
    ∧ (∀ (slot : TemplateSlot) (values : List (String × String)),
        values.lookup slot.name = none →
        renderValue slot values = renderValue slot [(slot.name, slot.default_value.getD "")])
    ∧ (∀ (sid txt : String) (slot : TemplateSlot) (values : List (String × String)),
        render ⟨sid, txt, [slot], none⟩ values =
          pyReplace txt ("\x7b" ++ slot.name ++ "\x7d") (renderValue slot values)) := by
  refine ⟨?_, ?_, ?_⟩
  · intro slot values m v hm h0 hl hlen
    have hval : renderValue slot values = rsplitBeforeLastSpace (pyTake v m) ++ "..." := by
      unfold renderValue
      rw [hl, hm]
      simp only [Option.getD_some]
      rw [if_pos ⟨Nat.pos_iff_ne_zero.mp h0, hlen⟩]
    refine ⟨hval, ?_⟩
    rw [hval, String.length_append]
    have h1 := rsplitBeforeLastSpace_length_le (pyTake v m)
    have h2 := pyTake_length_le v m
    have h3 : ("..." : String).length = 3 := rfl
    omega
  · intro slot values hnone
    unfold renderValue
    rw [hnone]
    have hlk : List.lookup slot.name [(slot.name, slot.default_value.getD "")]
        = some (slot.default_value.getD "") := by
      simp [List.lookup]
    rw [hlk]
    rfl
  · intro sid txt slot values
    rfl

/-- C10 witness: the truncation branch evaluated on a concrete over-long
value in a concrete slot. -/
theorem C10_witness :
    overlongSlot.max_length = some 50 ∧ 0 < 50 ∧
    List.lookup overlongSlot.name [("x", sneakyValue)] = some sneakyValue ∧
    50 < sneakyValue.length ∧
    renderValue overlongSlot [("x", sneakyValue)] =
      rsplitBeforeLastSpace (pyTake sneakyValue 50) ++ "..." ∧
    (renderValue overlongSlot [("x", sneakyValue)]).length ≤ 50 + 3 := by
  have hl : List.lookup overlongSlot.name [("x", sneakyValue)] = some sneakyValue := by
    with_unfolding_all decide
  have hlen : 50 < sneakyValue.length := by with_unfolding_all decide
  have happ := C10_render_truncation_and_defaults.1 overlongSlot [("x", sneakyValue)]
    50 sneakyValue rfl (by decide) hl hlen
  exact ⟨rfl, by decide, hl, hlen, happ.1, happ.2⟩

/-- C10 counterexample: the supplied value of 50 `a`s followed by `"..."`
(53 characters, strictly longer than the slot's `max_length` of 50) renders
verbatim — truncation keeps the first 50 characters (no space to cut back
to) and re-appends `"..."`, reproducing the value exactly, so an over-long
extracted value *can* appear exactly in the rendered section. -/
theorem C10_counterexample_overlong_value_rendered_verbatim :
    50 < sneakyValue.length ∧
    render overlongTemplate [("x", sneakyValue)] = sneakyValue := by
  with_unfolding_all decide
